import Mathlib

/-!
# Verification of the palbot autocomplete / lookup core

Shallow embedding of `src/main.rs` and `src/autocomplete.rs` of
`zshift/palbot-rs`, with theorems settling the specification claims.

The embedding keeps the source's names where Lean allows it.  Stateful or
effectful Rust code (the HTTP fetch in `State::get_pal`) is modelled by
explicit parameters: the network is a function from the request URL to a
transport outcome, and the list of issued requests is returned alongside
the result so that frame claims about outbound calls can be stated.
-/

/-! ## Data model (`src/main.rs` lines 70-127) -/

/-- `Suitability` (main.rs lines 114-120): a work-suitability entry. -/
structure Suitability where
  type_field : String
  level : Int
deriving DecidableEq

/-- `Aura` (main.rs lines 122-127). -/
structure Aura where
  name : String
  description : String
deriving DecidableEq

/-- `Pal` (main.rs lines 80-94): one entity record from the API. -/
structure Pal where
  id : Int
  key : String
  image : String
  name : String
  wiki : String
  types : List String
  image_wiki : String
  suitability : List Suitability
  drops : List String
  aura : Aura
  description : String
deriving DecidableEq

/-- `APIResponse` (main.rs lines 70-78): the paginated envelope. -/
structure APIResponse where
  content : List Pal
  page : Int
  limit : Int
  count : Int
  total : Int
deriving DecidableEq

/-- `PalError` (main.rs lines 96-112).  `reqwest::Error` and
`anyhow::Error` payloads are modelled by their message strings. -/
inductive PalError where
  | NoPalFound (name : String)
  | Reqwest (msg : String)
  | TokenExpired
  | MissingContent
  | Unexpected (msg : String)
deriving DecidableEq

/-! ## Presentation formatter labels (main.rs lines 241-267)

The `pal` command builds the embed's field list; the two conditional
labels are factored out exactly as the two `if` expressions appear in
the source. -/

/-- Label of the types field (main.rs lines 248-252):
`if pal.types.len() == 1 { "Type" } else { "Types" }`. -/
def palTypesLabel (p : Pal) : String :=
  if p.types.length = 1 then "Type" else "Types"

/-- Label of the work-suitability field (main.rs lines 258-262):
`if pal.suitability.len() == 1 { "Work Suitability" } else { "Work Suitabilities" }`. -/
def palSuitLabel (p : Pal) : String :=
  if p.suitability.length = 1 then "Work Suitability" else "Work Suitabilities"

/-- A concrete `Pal` used by witnesses: two types, one suitability. -/
def palTwoTypes : Pal :=
  { id := 1, key := "001", image := "", name := "Lamball", wiki := "",
    types := ["neutral", "dark"], image_wiki := "",
    suitability := [{ type_field := "handiwork", level := 1 }],
    drops := [], aura := { name := "fluffy shield", description := "" },
    description := "" }

/-- A concrete `Pal` with empty `types` and empty `suitability`. -/
def palNoTypes : Pal :=
  { id := 2, key := "002", image := "", name := "Foxparks", wiki := "",
    types := [], image_wiki := "",
    suitability := [],
    drops := [], aura := { name := "", description := "" },
    description := "" }

/-! ## URL and percent-encoding model (main.rs lines 42-47)

`urlencoding::encode` percent-encodes every UTF-8 byte of its input
except ASCII alphanumerics and `-`, `.`, `_`, `~`, using uppercase hex
digits.  `Url::set_query` is modelled as setting the query component:
the value handed to it here is already fully percent-encoded, so the
`url` crate passes it through unchanged. -/

/-- The UTF-8 bytes of a character, as natural numbers below 256. -/
def utf8Bytes (c : Char) : List Nat :=
  let n := c.toNat
  if n < 0x80 then [n]
  else if n < 0x800 then
    [0xC0 + n / 64, 0x80 + n % 64]
  else if n < 0x10000 then
    [0xE0 + n / 4096, 0x80 + n / 64 % 64, 0x80 + n % 64]
  else
    [0xF0 + n / 262144, 0x80 + n / 4096 % 64, 0x80 + n / 64 % 64, 0x80 + n % 64]

/-- Uppercase hexadecimal digit for a value below 16. -/
def hexDigit (n : Nat) : Char :=
  if n < 10 then Char.ofNat (48 + n) else Char.ofNat (55 + n)

/-- Bytes the `urlencoding` crate leaves unencoded: ASCII alphanumerics
and `-`, `.`, `_`, `~`. -/
def isUnreservedByte (b : Nat) : Bool :=
  (65 ≤ b && b ≤ 90) || (97 ≤ b && b ≤ 122) || (48 ≤ b && b ≤ 57) ||
    b == 45 || b == 46 || b == 95 || b == 126

/-- Percent-encoding of one byte. -/
def encodeByte (b : Nat) : List Char :=
  if isUnreservedByte b then [Char.ofNat b]
  else ['%', hexDigit (b / 16), hexDigit (b % 16)]

/-- `urlencoding::encode`: percent-encode a string byte by byte. -/
def urlencode (s : String) : String :=
  String.mk (((s.data.map utf8Bytes).flatten).map encodeByte).flatten

/-- A URL, reduced to the parts `get_pal` manipulates: the base (scheme,
host and path) and the optional query string. -/
structure Url where
  base : String
  query : Option String
deriving DecidableEq

/-- An upstream HTTP response as `get_pal` observes it: the status code,
and the outcome of deserializing the body as an `APIResponse` (an
`Except` because `.json()` can fail; the error side carries the decode
error's message). -/
structure HttpResponse where
  status : Nat
  body : Except String APIResponse

/-! ## Fuzzy-match engine (`src/autocomplete.rs`)

`AutoCompleteEngine` delegates all matching to the external `simsearch`
crate, whose code is not part of this repository.  Scores are
nonnegative rationals represented as unreduced fractions of naturals,
so every comparison is a cross-multiplication over `Nat`. -/

/-- A nonnegative rational score, as an unreduced fraction
`(numerator, denominator)` with positive denominator by construction. -/
abbrev Frac := Nat × Nat

/-- Fraction addition. -/
def fadd (a b : Frac) : Frac := (a.1 * b.2 + b.1 * a.2, a.2 * b.2)

/-- Fraction multiplication. -/
def fmul (a b : Frac) : Frac := (a.1 * b.1, a.2 * b.2)

/-- `a ≤ b` on fractions, by cross-multiplication. -/
def fle (a b : Frac) : Bool := a.1 * b.2 ≤ b.1 * a.2

/-- `a < b` on fractions, by cross-multiplication. -/
def flt (a b : Frac) : Bool := a.1 * b.2 < b.1 * a.2

/-- `1 - a` on fractions (saturating at 0). -/
def fcompl (a : Frac) : Frac := (a.2 - a.1, a.2)

/-- First index of an unused occurrence of `c` in `s2`, scanning `count`
positions starting at `j`. -/
def findMatch (c : Char) (s2 : List Char) (used : List Bool) :
    Nat → Nat → Option Nat
  | _, 0 => none
  | j, count + 1 =>
    match s2.get? j with
    | none => none
    | some d =>
      if used.getD j true = false && d == c then some j
      else findMatch c s2 used (j + 1) count

/-- One pass of the Jaro matching phase: for each character of `s1` in
order, claim the first unused equal character of `s2` inside the search
window.  Returns the matched characters of `s1` in order and the usage
flags over `s2`. -/
def jaroScan (s1 s2 : List Char) (window : Nat) : List Char × List Bool :=
  s1.enum.foldl
    (fun acc ic =>
      let i := ic.1
      let c := ic.2
      let lo := i - window
      let hi := min (i + window) (s2.length - 1)
      match findMatch c s2 acc.2 lo (hi + 1 - lo) with
      | some j => (acc.1 ++ [c], acc.2.set j true)
      | none => acc)
    ([], List.replicate s2.length false)

/-- The characters of `s2` claimed during the matching phase, in order. -/
def matchedChars (s2 : List Char) (used : List Bool) : List Char :=
  ((s2.zip used).filter (fun p => p.2)).map (fun p => p.1)

/-- Jaro similarity of two character lists:
`(m/|s1| + m/|s2| + (m - t)/m) / 3` with `m` matches and `t`
transpositions (half the pairwise mismatches of the matched runs). -/
def jaro (s1 s2 : List Char) : Frac :=
  if s1.isEmpty && s2.isEmpty then (1, 1)
  else if s1.isEmpty || s2.isEmpty then (0, 1)
  else
    let window := max s1.length s2.length / 2 - 1
    let scan := jaroScan s1 s2 window
    let m1 := scan.1
    let m2 := matchedChars s2 scan.2
    let m := m1.length
    if m = 0 then (0, 1)
    else
      let mismatches := ((m1.zip m2).filter (fun p => !(p.1 == p.2))).length
      let s := fadd (fadd (m, s1.length) (m, s2.length))
        (2 * m - mismatches, 2 * m)
      (s.1, s.2 * 3)

/-- Length of the common leading run of two character lists. -/
def commonLead : List Char → List Char → Nat
  | a :: as, b :: bs => if a == b then 1 + commonLead as bs else 0
  | _, _ => 0

/-- Jaro-Winkler similarity: when the Jaro score exceeds 7/10, boost it
by a tenth of the common leading run (capped at 4 characters) of the
remaining distance to 1. -/
def jaroWinkler (s1 s2 : List Char) : Frac :=
  let j := jaro s1 s2
  if flt (7, 10) j then
    fadd j (fmul (min (commonLead s1 s2) 4, 10) (fcompl j))
  else j

/-- The lowercased characters of a string. -/
def lowercase (s : String) : List Char := s.data.map Char.toLower

/-- Modelled from the spec: the fuzzy search of the external `simsearch`
crate, which `AutoCompleteEngine` wraps and whose source is not part of
this repository.  Per §4.2 of the spec it is case-insensitive,
typo-tolerant matching "ranked by the underlying similarity metric",
with the exact ordering pinned by the literal test cases of §8 (which
match `test_autocomplete` in `src/autocomplete.rs`).  The model scores
each indexed name against the query with case-insensitive Jaro-Winkler
similarity, keeps the names scoring at least 4/5, and ranks them by
descending score (stably, so insertion order breaks ties). -/
def simSearch (entries : List String) (query : String) : List String :=
  let q := lowercase query
  let scored := entries.map (fun name => (name, jaroWinkler q (lowercase name)))
  let kept := scored.filter (fun p => fle (4, 5) p.2)
  let ranked :=
    List.insertionSort (fun a b : String × Frac => fle b.2 a.2 = true) kept
  ranked.map (fun p => p.1)

/-- `AutoCompleteEngine` (autocomplete.rs lines 4-6), holding the
inserted `(id, content)` pairs; `insert(name.clone(), name)` registers
each name under itself, so the engine state is just the name list. -/
structure AutoCompleteEngine where
  entries : List String

/-- `AutoCompleteEngine::new` (autocomplete.rs lines 10-18). -/
def AutoCompleteEngine.new (data : List String) : AutoCompleteEngine :=
  { entries := data }

/-- `AutoCompleteEngine::autocomplete` (autocomplete.rs lines 20-22). -/
def AutoCompleteEngine.autocomplete (e : AutoCompleteEngine) (query : String) :
    List String :=
  simSearch e.entries query

/-- The bot's state (main.rs lines 22-26). -/
structure State where
  pal_names : List String
  ac_eng : AutoCompleteEngine
  pal_api_url : Url

/-- The request URL `get_pal` builds (main.rs lines 43-45): the API URL
with its query set to `name=` followed by the percent-encoded name. -/
def palRequestUrl (api : Url) (pal : String) : Url :=
  { api with query := some ("name=" ++ urlencode pal) }

/-- `State::get_pal` (main.rs lines 42-65).  The network is a function
from the request URL to a transport outcome (`Except.error` models a
failed `reqwest::get`, carrying the error message).  The first
component of the result lists every URL fetched during the call, in
order, so that frame claims about outbound requests can be stated; the
second is the `Result<Pal, PalError>` value. -/
def State.get_pal (st : State) (pal : String)
    (net : Url → Except String HttpResponse) :
    List Url × Except PalError Pal :=
  let url := palRequestUrl st.pal_api_url pal
  let result : Except PalError Pal :=
    match net url with
    | .error e => .error (.Reqwest e)
    | .ok response =>
      let parsed : Except PalError APIResponse :=
        match response.status with
        | 200 =>
          match response.body with
          | .ok r => .ok r
          | .error e => .error (.Reqwest e)
        | 401 => .error .TokenExpired
        | other => .error (.Unexpected ("Unexpected status code: " ++ toString other))
      match parsed with
      | .error e => .error e
      | .ok parsed =>
        match parsed.content.head? with
        | some pal => .ok pal
        | none => .error .MissingContent
  ([url], result)

/-- Whether a lookup result is a `NoPalFound` error. -/
def resultIsNoPalFound : Except PalError Pal → Bool
  | .error (.NoPalFound _) => true
  | _ => false

/-- A concrete envelope with empty `content`, as returned by a
well-formed 200 response for an unknown name. -/
def emptyEnvelope : APIResponse :=
  { content := [], page := 1, limit := 10, count := 0, total := 0 }

/-- A concrete API URL used by witnesses. -/
def demoApi : Url :=
  { base := "https://palapi.example/pals", query := none }

/-- A concrete state used by witnesses. -/
def demoState : State :=
  { pal_names := ["Apex", "Apple", "Banana"],
    ac_eng := AutoCompleteEngine.new ["Apex", "Apple", "Banana"],
    pal_api_url := demoApi }

/-- Lexicographic comparison of character lists by codepoint, which for
UTF-8 strings coincides with Rust's byte-lexicographic `String` order. -/
def charListLe : List Char → List Char → Bool
  | [], _ => true
  | _ :: _, [] => false
  | a :: as, b :: bs =>
    if a.toNat = b.toNat then charListLe as bs
    else decide (a.toNat < b.toNat)

/-- Rust's `String` ordering, as a propositional relation on strings. -/
def stringLe (a b : String) : Prop := charListLe a.data b.data = true

instance : DecidableRel stringLe :=
  fun a b => inferInstanceAs (Decidable (charListLe a.data b.data = true))

theorem charListLe_total : ∀ a b : List Char,
    charListLe a b = true ∨ charListLe b a = true := by
  intro a
  induction a with
  | nil => intro b; left; rfl
  | cons x xs ih =>
    intro b
    cases b with
    | nil => right; rfl
    | cons y ys =>
      simp only [charListLe]
      by_cases h : x.toNat = y.toNat
      · rw [if_pos h, if_pos h.symm]
        exact ih ys
      · rw [if_neg h, if_neg (Ne.symm h)]
        simp only [decide_eq_true_eq]
        omega

theorem charListLe_trans : ∀ a b c : List Char,
    charListLe a b = true → charListLe b c = true → charListLe a c = true := by
  intro a
  induction a with
  | nil => intro b c _ _; rfl
  | cons x xs ih =>
    intro b c hab hbc
    cases b with
    | nil => simp [charListLe] at hab
    | cons y ys =>
      cases c with
      | nil => simp [charListLe] at hbc
      | cons z zs =>
        simp only [charListLe] at hab hbc ⊢
        by_cases h1 : x.toNat = y.toNat <;> by_cases h2 : y.toNat = z.toNat
        · rw [if_pos h1] at hab
          rw [if_pos h2] at hbc
          rw [if_pos (h1.trans h2)]
          exact ih ys zs hab hbc
        · rw [if_pos h1] at hab
          rw [if_neg h2] at hbc
          simp only [decide_eq_true_eq] at hbc
          rw [if_neg (by omega : ¬ x.toNat = z.toNat)]
          simp only [decide_eq_true_eq]
          omega
        · rw [if_neg h1] at hab
          simp only [decide_eq_true_eq] at hab
          rw [if_neg (by omega : ¬ x.toNat = z.toNat)]
          simp only [decide_eq_true_eq]
          omega
        · rw [if_neg h1] at hab
          rw [if_neg h2] at hbc
          simp only [decide_eq_true_eq] at hab hbc
          rw [if_neg (by omega : ¬ x.toNat = z.toNat)]
          simp only [decide_eq_true_eq]
          omega

instance : IsTotal String stringLe :=
  ⟨fun a b => charListLe_total a.data b.data⟩

instance : IsTrans String stringLe :=
  ⟨fun a b c => charListLe_trans a.data b.data c.data⟩

/-- Rust's stable `Vec::<String>::sort()` (main.rs line 32), modelled by
stable insertion sort under the lexicographic string order. -/
def sortNames (names : List String) : List String :=
  List.insertionSort stringLe names

/-- `State::new` (main.rs lines 29-39): sort the fetched names, then
build the engine over the sorted list and store both.  The name fetch
itself is network I/O, so the fetched list is a parameter. -/
def State.new (pal_api_url : Url) (fetched : List String) : State :=
  let pal_names := sortNames fetched
  { ac_eng := AutoCompleteEngine.new pal_names,
    pal_names := pal_names,
    pal_api_url := pal_api_url }

/-- `autocomplete_pal` (main.rs lines 130-144): an empty partial query
returns a clone of the full name store; otherwise the query is handed
to the engine on a spawned task, modelled as the direct call (the
join-error fallback to `[]` is unreachable in this sequential model). -/
def autocomplete_pal (st : State) (q : String) : List String :=
  if q.isEmpty then st.pal_names
  else st.ac_eng.autocomplete q

/-! ## Title-casing and wiki links (main.rs lines 160-165)

`format_wiki` calls `Inflector::to_title_case`, an external crate.  It
is modelled here by its documented behaviour: the input is split into
words at separator characters (space, underscore, hyphen) and at
lower-to-upper case boundaries, each word is rendered with its first
character uppercased and the rest lowercased, and the words are joined
by single spaces. -/

/-- Characters the title-caser treats as word separators. -/
def isWordSep (c : Char) : Bool := c == ' ' || c == '_' || c == '-'

/-- Accumulating word splitter; `acc` holds the current word reversed. -/
def splitWordsAux : List Char → List Char → List (List Char)
  | [], acc => if acc.isEmpty then [] else [acc.reverse]
  | c :: rest, acc =>
    if isWordSep c then
      if acc.isEmpty then splitWordsAux rest []
      else acc.reverse :: splitWordsAux rest []
    else if c.isUpper && (match acc with | a :: _ => a.isLower | [] => false) then
      acc.reverse :: splitWordsAux rest [c]
    else
      splitWordsAux rest (c :: acc)

/-- Split a character list into words. -/
def splitWords (s : List Char) : List (List Char) := splitWordsAux s []

/-- Capitalize one word: first character uppercased, rest lowercased. -/
def capitalizeWord : List Char → List Char
  | [] => []
  | c :: cs => c.toUpper :: cs.map Char.toLower

/-- Model of the Inflector crate's `to_title_case` (external to this
repository): capitalize every word and join the words with spaces. -/
def toTitleCase (s : String) : String :=
  String.mk (List.intercalate [' '] ((splitWords s.data).map capitalizeWord))

/-- The visible text of the wiki link built by `format_wiki` (main.rs
line 162): the title-cased name. -/
def wikiText (name : String) : String := toTitleCase name

/-- The URL slug built by `format_wiki` (main.rs line 163): the
title-cased name with every space replaced by an underscore, Rust's
`str::replace(' ', "_")`. -/
def wikiSlug (name : String) : String :=
  String.mk ((toTitleCase name).data.map (fun c => if c == ' ' then '_' else c))

/-- `format_wiki` (main.rs lines 160-165). -/
def format_wiki (name : String) : String :=
  "[" ++ wikiText name ++ "](https://palworld.fandom.com/wiki/" ++ wikiSlug name ++ ")"

/-- C7: the embed's types label is the singular "Type" exactly when the
types list has length 1, and "Types" whenever its length is 2 or more;
the same rule maps the suitability list to "Work Suitability" versus
"Work Suitabilities". -/
theorem embed_labels_pluralize_at_one (p : Pal) :
    (palTypesLabel p = "Type" ↔ p.types.length = 1) ∧
    (2 ≤ p.types.length → palTypesLabel p = "Types") ∧
    (palSuitLabel p = "Work Suitability" ↔ p.suitability.length = 1) ∧
    (2 ≤ p.suitability.length → palSuitLabel p = "Work Suitabilities") := by
  refine ⟨?_, ?_, ?_, ?_⟩
  · unfold palTypesLabel
    split
    · simp [*]
    · constructor
      · intro h
        exact absurd h (by decide)
      · intro h
        simp_all
  · intro h
    unfold palTypesLabel
    split
    · omega
    · rfl
  · unfold palSuitLabel
    split
    · simp [*]
    · constructor
      · intro h
        exact absurd h (by decide)
      · intro h
        simp_all
  · intro h
    unfold palSuitLabel
    split
    · omega
    · rfl

/-- Witness for C7 at a concrete record: two types give "Types", one
suitability entry gives "Work Suitability". -/
theorem embed_labels_pluralize_at_one_witness :
    palTypesLabel palTwoTypes = "Types" ∧
    palSuitLabel palTwoTypes = "Work Suitability" :=
  ⟨(embed_labels_pluralize_at_one palTwoTypes).2.1 (by decide),
   ((embed_labels_pluralize_at_one palTwoTypes).2.2.1).mpr (by decide)⟩

/-- C10: an empty types list (length 0) renders the plural label
"Types", and an empty suitability list renders "Work Suitabilities":
the singular label is chosen only at length exactly 1. -/
theorem embed_labels_plural_on_empty (p : Pal) :
    (p.types = [] → palTypesLabel p = "Types") ∧
    (p.suitability = [] → palSuitLabel p = "Work Suitabilities") := by
  constructor
  · intro h
    unfold palTypesLabel
    rw [h]
    rfl
  · intro h
    unfold palSuitLabel
    rw [h]
    rfl

/-- Witness for C10 at a concrete record with both lists empty. -/
theorem embed_labels_plural_on_empty_witness :
    palTypesLabel palNoTypes = "Types" ∧
    palSuitLabel palNoTypes = "Work Suitabilities" :=
  ⟨(embed_labels_plural_on_empty palNoTypes).1 (by decide),
   (embed_labels_plural_on_empty palNoTypes).2 (by decide)⟩

/-- C3: a 200 response whose envelope parses with an empty `content`
list makes `get_pal` fail with `MissingContent`; no `Pal` value, default
or otherwise, is ever returned in that case. -/
theorem get_pal_empty_content_missing_content (st : State) (pal : String)
    (net : Url → Except String HttpResponse) (resp : APIResponse)
    (hnet : net (palRequestUrl st.pal_api_url pal) = .ok { status := 200, body := .ok resp })
    (hempty : resp.content = []) :
    (st.get_pal pal net).2 = .error .MissingContent ∧
    ∀ p : Pal, (st.get_pal pal net).2 ≠ .ok p := by
  unfold State.get_pal
  simp only [hnet, hempty]
  exact ⟨rfl, fun p h => by simp_all⟩

/-- Witness for C3: a concrete state, name and network returning a 200
response with an empty envelope. -/
theorem get_pal_empty_content_missing_content_witness :
    (demoState.get_pal "Lamball"
        (fun _ => .ok { status := 200, body := .ok emptyEnvelope })).2 =
      .error .MissingContent ∧
    ∀ p : Pal,
      (demoState.get_pal "Lamball"
          (fun _ => .ok { status := 200, body := .ok emptyEnvelope })).2 ≠ .ok p :=
  get_pal_empty_content_missing_content demoState "Lamball"
    (fun _ => .ok { status := 200, body := .ok emptyEnvelope }) emptyEnvelope
    rfl rfl

/-- C4: an HTTP 401 response makes `get_pal` fail with `TokenExpired`,
whatever the response body deserializes to. -/
theorem get_pal_401_token_expired (st : State) (pal : String)
    (net : Url → Except String HttpResponse) (body : Except String APIResponse)
    (hnet : net (palRequestUrl st.pal_api_url pal) = .ok { status := 401, body := body }) :
    (st.get_pal pal net).2 = .error .TokenExpired := by
  unfold State.get_pal
  simp only [hnet]

/-- Witness for C4: a 401 whose body would even parse to a non-empty
envelope is still reported as `TokenExpired`. -/
theorem get_pal_401_token_expired_witness :
    (demoState.get_pal "Lamball"
        (fun _ => .ok { status := 401, body := .ok { emptyEnvelope with content := [palTwoTypes] } })).2 =
      .error .TokenExpired :=
  get_pal_401_token_expired demoState "Lamball"
    (fun _ => .ok { status := 401, body := .ok { emptyEnvelope with content := [palTwoTypes] } })
    (.ok { emptyEnvelope with content := [palTwoTypes] }) rfl

/-- C9: every call to `get_pal` issues exactly one outbound GET, and the
query string of its URL is exactly `name=` followed by the
percent-encoding of the queried name.  This holds for every network
behaviour, including transport failures. -/
theorem get_pal_single_encoded_request (st : State) (pal : String)
    (net : Url → Except String HttpResponse) :
    (st.get_pal pal net).1.length = 1 ∧
    (st.get_pal pal net).1.map Url.query = [some ("name=" ++ urlencode pal)] := by
  exact ⟨rfl, rfl⟩

/-- C5 counterexample: on a well-formed 200 response with empty
`content`, `get_pal` fails with `MissingContent`, not with
`NoPalFound` carrying the queried name — the `NoPalFound` variant is
never produced on this path. -/
theorem get_pal_empty_content_not_no_pal_found :
    (demoState.get_pal "Lamball"
        (fun _ => .ok { status := 200, body := .ok emptyEnvelope })).2 =
      .error .MissingContent ∧
    resultIsNoPalFound
        (demoState.get_pal "Lamball"
          (fun _ => .ok { status := 200, body := .ok emptyEnvelope })).2 = false ∧
    PalError.MissingContent ≠ PalError.NoPalFound "Lamball" := by
  refine ⟨rfl, rfl, by decide⟩

/-- C5 amended: on a well-formed 200 response with empty `content`,
`get_pal` fails with the `MissingContent` error kind, which carries no
name; the `NoPalFound` kind is not the one produced. -/
theorem get_pal_empty_content_kind_is_missing (st : State) (pal : String)
    (net : Url → Except String HttpResponse) (resp : APIResponse)
    (hnet : net (palRequestUrl st.pal_api_url pal) = .ok { status := 200, body := .ok resp })
    (hempty : resp.content = []) :
    (st.get_pal pal net).2 = .error .MissingContent ∧
    resultIsNoPalFound (st.get_pal pal net).2 = false := by
  unfold State.get_pal
  simp only [hnet, hempty]
  exact ⟨rfl, rfl⟩

/-- Witness for the amended C5 at a concrete state, name and network. -/
theorem get_pal_empty_content_kind_is_missing_witness :
    (demoState.get_pal "Fuack"
        (fun _ => .ok { status := 200, body := .ok emptyEnvelope })).2 =
      .error .MissingContent ∧
    resultIsNoPalFound
        (demoState.get_pal "Fuack"
          (fun _ => .ok { status := 200, body := .ok emptyEnvelope })).2 = false :=
  get_pal_empty_content_kind_is_missing demoState "Fuack"
    (fun _ => .ok { status := 200, body := .ok emptyEnvelope }) emptyEnvelope
    rfl rfl

/-- C1: for every non-empty fetched name list, querying the
autocomplete operation with the empty string returns the full name
store, in its stored (sorted) order: the result is the stored list
itself, a sorted permutation of the fetched names, and the fuzzy
engine is bypassed entirely (replacing the engine by any other leaves
the answer unchanged). -/
theorem autocomplete_empty_query_returns_store (api : Url) (names : List String)
    (_h : names ≠ []) :
    autocomplete_pal (State.new api names) "" = (State.new api names).pal_names ∧
    ((State.new api names).pal_names).Perm names ∧
    ∀ e : AutoCompleteEngine,
      autocomplete_pal { State.new api names with ac_eng := e } "" =
        (State.new api names).pal_names :=
  ⟨rfl, List.perm_insertionSort stringLe names, fun _ => rfl⟩

/-- Witness for C1 at a concrete non-empty name list. -/
theorem autocomplete_empty_query_returns_store_witness :
    autocomplete_pal (State.new demoApi ["Banana", "Apple", "Apex"]) "" =
      (State.new demoApi ["Banana", "Apple", "Apex"]).pal_names :=
  (autocomplete_empty_query_returns_store demoApi ["Banana", "Apple", "Apex"]
    (by decide)).1

/-- C2: over the names ["Apple", "Apex", "Banana"], the engine answers
the query "appl" with exactly ["Apple"] and the query "ap" with exactly
["Apex", "Apple"], ranking Apex before Apple. -/
theorem engine_pinned_orderings :
    (AutoCompleteEngine.new ["Apple", "Apex", "Banana"]).autocomplete "appl" =
      ["Apple"] ∧
    (AutoCompleteEngine.new ["Apple", "Apex", "Banana"]).autocomplete "ap" =
      ["Apex", "Apple"] := by
  constructor <;> decide

/-- C6 counterexample: `State::new` sorts but never deduplicates, so a
fetched list with a repeated name yields a name store whose entries are
not unique. -/
theorem name_store_duplicates_kept :
    (State.new demoApi ["Lamball", "Lamball"]).pal_names = ["Lamball", "Lamball"] ∧
    ¬ (State.new demoApi ["Lamball", "Lamball"]).pal_names.Nodup := by
  constructor
  · decide
  · decide

/-- C6 amended: after `State::new` the name store is sorted
lexicographically and is a permutation of the fetched names; its
entries are unique provided the fetched names are pairwise distinct
(no deduplication is performed).  Nothing mutates it afterwards: the
embedding's operations take the state read-only. -/
theorem name_store_sorted (api : Url) (names : List String) :
    ((State.new api names).pal_names).Sorted stringLe ∧
    ((State.new api names).pal_names).Perm names ∧
    (names.Nodup → ((State.new api names).pal_names).Nodup) :=
  ⟨List.sorted_insertionSort stringLe names,
   List.perm_insertionSort stringLe names,
   fun h => ((List.perm_insertionSort stringLe names).nodup_iff).mpr h⟩

/-- Witness for C6 at a concrete duplicate-free name list. -/
theorem name_store_sorted_witness :
    ((State.new demoApi ["Banana", "Apple"]).pal_names).Nodup :=
  (name_store_sorted demoApi ["Banana", "Apple"]).2.2 (by decide)

/-- C8: for a name that is already title-cased (a fixed point of the
title-caser) and contains no spaces, `format_wiki` renders a link whose
visible text is the input unchanged and whose URL slug is the input
unchanged, hence free of spaces and of any introduced encoding. -/
theorem format_wiki_fixed_point (name : String)
    (htitle : toTitleCase name = name)
    (hspace : ∀ c ∈ name.data, c ≠ ' ') :
    wikiText name = name ∧
    wikiSlug name = name ∧
    (∀ c ∈ (wikiSlug name).data, c ≠ ' ') ∧
    format_wiki name =
      "[" ++ name ++ "](https://palworld.fandom.com/wiki/" ++ name ++ ")" := by
  have hslug : wikiSlug name = name := by
    unfold wikiSlug
    rw [htitle]
    have hmap : name.data.map (fun c => if c == ' ' then '_' else c) = name.data := by
      calc name.data.map (fun c => if c == ' ' then '_' else c)
          = name.data.map id := by
            apply List.map_congr_left
            intro c hc
            simp [hspace c hc]
        _ = name.data := List.map_id _
    rw [hmap]
  refine ⟨htitle, hslug, ?_, ?_⟩
  · rw [hslug]
    exact hspace
  · unfold format_wiki wikiText
    rw [htitle, hslug]

/-- Witness for C8 at the already-title-cased, space-free name
"Lamball". -/
theorem format_wiki_fixed_point_witness :
    wikiSlug "Lamball" = "Lamball" ∧
    format_wiki "Lamball" = "[Lamball](https://palworld.fandom.com/wiki/Lamball)" :=
  ⟨(format_wiki_fixed_point "Lamball" (by decide) (by decide)).2.1,
   (format_wiki_fixed_point "Lamball" (by decide) (by decide)).2.2.2⟩
